import Mathlib

/-
Shallow embedding of `src/software/metax/predixcan/Utilities.py`: context
preparation for PrediXcan-style association runs.  Numeric values are
modelled as exact rationals; a missing value (numpy NaN) is a distinguished
constructor.  File reads are modelled by carrying the parsed file contents
(the selected phenotype column, the covariates table) inside the
configuration record.  The external OLS fitting routine (statsmodels) is
modelled as an abstract parameter returning the coefficient vector.
-/

namespace Metax

/-- A floating-point cell: either missing (NaN) or an exact numeric value. -/
inductive PFloat where
  | nan : PFloat
  | val : ℚ → PFloat
deriving DecidableEq, Repr

def PFloat.isNan : PFloat → Bool
  | .nan => true
  | .val _ => false

/-- The numeric content of a non-missing cell (0 for NaN, never used there). -/
def PFloat.q : PFloat → ℚ
  | .nan => 0
  | .val x => x

/-- Association mode (MTPMode / PMode string constants of the external
modules; both allowed sets contain these two modes). -/
inductive Mode where
  | linear : Mode
  | logistic : Mode
deriving DecidableEq, Repr

/-- A covariate table: named columns, as parsed from the covariates file. -/
abbrev CovTable := List (String × List PFloat)

/-- The configuration record (`args`).  Boolean fields model the Python
truthiness of the corresponding path options; `rawPheno` is the parsed
contents of the configured phenotype column before sentinel substitution,
`rawCovariates` the parsed covariates file. -/
structure Args where
  mode : Mode
  hdf5_expression_folder : Bool
  memory_efficient : Bool
  expression_folder : Bool
  expression_file : Bool
  hdf5_expression_file : Bool
  covariates_file : Bool
  covariates : List String
  rawPheno : List PFloat
  rawCovariates : CovTable
  pc_condition_number : Option ℚ
  pc_eigen_ratio : Option ℚ

/-- `numpy.isclose(v, -999.0, atol=1e-3, rtol=0)` followed by the NaN
substitution of `_pheno_from_file_and_column` / `_get_covariates`:
a value within 1/1000 of -999 (the absolute difference bound written as a
two-sided bound) becomes missing, everything else is kept; an
already-missing cell stays missing (isclose is false on NaN). -/
def sentinelFilter : PFloat → PFloat
  | .nan => .nan
  | .val q =>
    if -(1 / 1000) ≤ q - (-999) ∧ q - (-999) ≤ 1 / 1000 then .nan else .val q

/-- `_pheno_from_file_and_column`: the selected column with the sentinel
substituted by NaN. -/
def phenoFromFileAndColumn (raw : List PFloat) : List PFloat :=
  raw.map sentinelFilter

/-- The decimal string form `str(float(x))` as far as the binomial check
distinguishes it: the strings "0.0", "1.0", "nan", or some other string
determined by the value. -/
inductive StrRep where
  | s00 : StrRep
  | s10 : StrRep
  | snan : StrRep
  | other : ℚ → StrRep
deriving DecidableEq, Repr

def strRep : PFloat → StrRep
  | .nan => .snan
  | .val q => if q = 0 then .s00 else if q = 1 then .s10 else .other q

/-- `set([str(float(x)) for x in pheno]) == {'0.0', '1.0', 'nan'}`: the
value set reduces to exactly those three strings (each present, none
other). -/
def binomialOk (pheno : List PFloat) : Bool :=
  pheno.all (fun x => strRep x = .s00 ∨ strRep x = .s10 ∨ strRep x = .snan) &&
  pheno.any (fun x => strRep x = .s00) &&
  pheno.any (fun x => strRep x = .s10) &&
  pheno.any (fun x => strRep x = .snan)

/-- Python truthiness of an optional float option (None and 0.0 are falsy). -/
def truthy : Option ℚ → Bool
  | none => false
  | some q => q ≠ 0

/-- The numeric value of an optional float option. -/
def optQ (o : Option ℚ) : ℚ := o.getD 0

/-- `numpy.max` over a list (raises on an empty array; the claims are
restricted to non-empty input, where this equals the maximum). -/
def npMax : List ℚ → ℚ
  | [] => 0
  | x :: xs => xs.foldl max x

/-- Python `enumerate`. -/
def enumerate (s : List ℚ) : List (ℕ × ℚ) :=
  (List.range s.length).zip s

/-- `_filter_eigen_values_from_max`: the indices of the eigenvalues
strictly above `max(s) * ratio`. -/
def filterEigenValuesFromMax (s : List ℚ) (ratio : ℚ) : List ℕ :=
  (enumerate s).filterMap (fun ix => if npMax s * ratio < ix.2 then some ix.1 else none)

/-- `_filter_from_args`: condition-number threshold first, then eigen-ratio
threshold, else no filter. -/
def filterFromArgs (args : Args) : Option (List ℚ → List ℕ) :=
  if truthy args.pc_condition_number then
    some (fun x => filterEigenValuesFromMax x (1 / optQ args.pc_condition_number))
  else if truthy args.pc_eigen_ratio then
    some (fun x => filterEigenValuesFromMax x (optQ args.pc_eigen_ratio))
  else
    none

/-- The abstract OLS fitting collaborator (statsmodels `OLS(y, X).fit()`):
from the design-matrix rows and the response vector, the coefficient
vector. -/
abbrev FitFn := List (List ℚ) → List ℚ → List ℚ

/-- Row `i` survives `e.dropna()`: neither the phenotype cell nor any
covariate cell at row `i` is missing (the synthetic order column is never
missing). -/
def retainedRow (pheno : List PFloat) (covs : CovTable) (i : ℕ) : Bool :=
  !(pheno.getD i .nan).isNan && covs.all (fun c => !(c.2.getD i .nan).isNan)

/-- The indices of the rows retained by the list-wise deletion, in order. -/
def retainedIdx (pheno : List PFloat) (covs : CovTable) : List ℕ :=
  (List.range pheno.length).filter (retainedRow pheno covs)

/-- `(column == 0).all()` over the retained rows. -/
def allZeroOn (idx : List ℕ) (col : List PFloat) : Bool :=
  idx.all (fun i => col.getD i .nan = .val 0)

/-- `e_[e_.columns[~(e_ == 0).all()]]` restricted to the covariate columns:
drop every covariate column that is entirely zero across the retained
rows. -/
def prunedCovs (pheno : List PFloat) (covs : CovTable) : CovTable :=
  covs.filter (fun c => !allZeroOn (retainedIdx pheno covs) c.2)

/-- Dot product, as used to evaluate the fitted value of one design row. -/
def dot : List ℚ → List ℚ → ℚ
  | a :: as, b :: bs => a * b + dot as bs
  | _, _ => 0

/-- One row of the design matrix patsy builds from `pheno ~ k1 + ... + kn`:
the intercept followed by the surviving covariate columns at row `i`. -/
def designRow (kept : CovTable) (i : ℕ) : List ℚ :=
  1 :: kept.map (fun c => (c.2.getD i .nan).q)

/-- The design matrix: one row per retained row index. -/
def designMatrix (pheno : List PFloat) (covs : CovTable) : List (List ℚ) :=
  (retainedIdx pheno covs).map (designRow (prunedCovs pheno covs))

/-- The response vector: the phenotype over the retained rows. -/
def responseVec (pheno : List PFloat) (covs : CovTable) : List ℚ :=
  (retainedIdx pheno covs).map (fun i => (pheno.getD i .nan).q)

/-- The coefficient vector the fitting collaborator returns. -/
def olsCoef (fit : FitFn) (pheno : List PFloat) (covs : CovTable) : List ℚ :=
  fit (designMatrix pheno covs) (responseVec pheno covs)

/-- `result.resid`: observed response minus fitted value, one entry per
retained row. -/
def residSeries (fit : FitFn) (pheno : List PFloat) (covs : CovTable) : List ℚ :=
  ((designMatrix pheno covs).zip (responseVec pheno covs)).map
    (fun ry => ry.2 - dot ry.1 (olsCoef fit pheno covs))

/-- `e.merge(e_[["order", "residual"]], on="order", how="left")["residual"]`:
for each original row, the residual of the retained row with that order key,
or NaN when the row was dropped. -/
def mergedResidual (fit : FitFn) (pheno : List PFloat) (covs : CovTable) : List PFloat :=
  (List.range pheno.length).map (fun i =>
    match ((retainedIdx pheno covs).zip (residSeries fit pheno covs)).lookup i with
    | some r => .val r
    | none => .nan)

/-- Errors `_get_residual` can raise, by raise site: `e["pheno"] = pheno`
with mismatched lengths (pandas ValueError); `keys.remove("pheno")` or
`keys.remove("order")` when the all-zero column drop removed that column
(ValueError); `dmatrices` on a formula with an empty right-hand side
(patsy error). -/
inductive RErr where
  | shapeMismatch : RErr
  | phenoColumnDropped : RErr
  | orderColumnDropped : RErr
  | emptyFormula : RErr
deriving DecidableEq, Repr

/-- Shapes compatible with `e["pheno"] = pheno`: every covariate column has
the phenotype's length, and a columnless table only accepts an empty
phenotype. -/
def shapeOk (pheno : List PFloat) (covs : CovTable) : Bool :=
  covs.all (fun c => c.2.length = pheno.length) && (!covs.isEmpty || pheno.isEmpty)

/-- `_get_residual`: assemble the working table, drop missing rows, drop
all-zero columns (failing when that removes the pheno or order column),
fit OLS on the surviving covariates and re-align the residuals onto the
original rows. -/
def getResidual (fit : FitFn) (pheno : List PFloat) (covs : CovTable) :
    Except RErr (List PFloat) :=
  if !shapeOk pheno covs then Except.error .shapeMismatch
  else if allZeroOn (retainedIdx pheno covs) pheno then Except.error .phenoColumnDropped
  else if (retainedIdx pheno covs).all (fun i => i = 0) then Except.error .orderColumnDropped
  else if (prunedCovs pheno covs).isEmpty then Except.error .emptyFormula
  else Except.ok (mergedResidual fit pheno covs)

/-- `covariates[args.covariates]`: select the named columns, in the order of
the name list; fails (pandas KeyError) when a name is absent. -/
def selectColumns (names : List String) (table : CovTable) : Option CovTable :=
  match names with
  | [] => some []
  | n :: ns =>
    match table.lookup n, selectColumns ns table with
    | some c, some rest => some ((n, c) :: rest)
    | _, _ => none

/-- Errors raised during context preparation, by raise site. -/
inductive PrepErr where
  | invalidArguments : PrepErr
  | keyError : PrepErr
  | residual : RErr → PrepErr
deriving DecidableEq, Repr

/-- `_get_covariates`: select the configured covariate columns and apply the
sentinel substitution independently to each. -/
def getCovariates (args : Args) : Except PrepErr CovTable :=
  match selectColumns args.covariates args.rawCovariates with
  | none => Except.error .keyError
  | some cols => Except.ok (cols.map (fun nc => (nc.1, nc.2.map sentinelFilter)))

/-- The state `_prepare_phenotype` leaves on the context. -/
structure PrepState where
  mode : Mode
  covariates : Option CovTable
  pheno : List PFloat
deriving DecidableEq, Repr

/-- `context.args.covariates_file and context.args.covariates`: both the
covariates file path and the covariate name list are truthy. -/
def covariateBranch (args : Args) : Bool :=
  args.covariates_file && !args.covariates.isEmpty

/-- `_prepare_phenotype`: load the phenotype, run the logistic binomial
check on it, then set the mode and, when covariates are configured, force
linear mode, load the covariates and replace the phenotype with the
residuals. -/
def preparePhenotype (fit : FitFn) (args : Args) : Except PrepErr PrepState :=
  let pheno := phenoFromFileAndColumn args.rawPheno
  if args.mode = .logistic && !binomialOk pheno then Except.error .invalidArguments
  else if covariateBranch args then
    match getCovariates args with
    | Except.error e => Except.error e
    | Except.ok covs =>
      match getResidual fit pheno covs with
      | Except.error e => Except.error (.residual e)
      | Except.ok r => Except.ok ⟨.linear, some covs, r⟩
  else Except.ok ⟨args.mode, none, pheno⟩

/-- The expression backends `_expression_from_args` can produce. -/
inductive MTPBackend where
  | hdf5ExpressionManager : MTPBackend
  | plainTextMemoryEfficient : MTPBackend
  | plainTextManager : MTPBackend
deriving DecidableEq, Repr

/-- The single-tissue contexts `p_context_from_args` can produce. -/
inductive PBackend where
  | hdf5PContext : PBackend
  | plainTextPContext : PBackend
deriving DecidableEq, Repr

/-- Failures of backend selection, by kind: `Exceptions.InvalidArguments`;
the bare `RuntimeError` of `_expression_from_args`; the interpreter's
UnboundLocalError when `p_context_from_args` returns its never-assigned
`context` variable. -/
inductive PyErr where
  | invalidArguments : PyErr
  | runtimeError : PyErr
  | unboundLocal : PyErr
deriving DecidableEq, Repr

/-- A configuration error in the sense of the spec's error taxonomy:
an invalid-arguments raise, or the explicit no-matching-backend raise.
An unbound local variable is an interpreter fault, not a configuration
error. -/
def isConfigurationError : PyErr → Bool
  | .invalidArguments => true
  | .runtimeError => true
  | .unboundLocal => false

/-- `_expression_from_args`: hdf5 folder, else memory-efficient text folder,
else text folder, else a RuntimeError. -/
def expressionFromArgs (args : Args) : Except PyErr MTPBackend :=
  if args.hdf5_expression_folder then Except.ok .hdf5ExpressionManager
  else if args.memory_efficient && args.expression_folder then
    Except.ok .plainTextMemoryEfficient
  else if args.expression_folder then Except.ok .plainTextManager
  else Except.error .runtimeError

/-- The selection of `p_context_from_args`: hdf5 expression file, else plain
expression file; with neither set, `context` is never assigned and the
final `return context` fails with UnboundLocalError. -/
def pContextFromArgs (args : Args) : Except PyErr PBackend :=
  if args.hdf5_expression_file then Except.ok .hdf5PContext
  else if args.expression_file then Except.ok .plainTextPContext
  else Except.error .unboundLocal

/-- The five backends of the spec's unified selector (§4.4). -/
inductive SpecBackend where
  | structuredMultiTissue : SpecBackend
  | memoryEfficientPlainText : SpecBackend
  | standardPlainText : SpecBackend
  | singleFilePlainText : SpecBackend
  | structuredSingleTissue : SpecBackend
deriving DecidableEq, Repr

/-- Modelled from the spec: the claimed unified backend-selection priority,
structured multi-tissue > memory-efficient plain-text > standard plain-text
> single-file plain-text > structured single-tissue, failing with a
configuration error when no condition matches. -/
def specBackendSelect (args : Args) : Except PyErr SpecBackend :=
  if args.hdf5_expression_folder then Except.ok .structuredMultiTissue
  else if args.memory_efficient && args.expression_folder then
    Except.ok .memoryEfficientPlainText
  else if args.expression_folder then Except.ok .standardPlainText
  else if args.expression_file then Except.ok .singleFilePlainText
  else if args.hdf5_expression_file then Except.ok .structuredSingleTissue
  else Except.error .invalidArguments

/-- Observable resource events of one analysis run. -/
inductive Ev where
  | expressionEnter : Ev
  | expressionExit : Ev
  | hdf5Open : Ev
  | hdf5Close : Ev
  | bodyEvent : Ev
deriving DecidableEq, Repr

/-- The scoped-execution protocol (`with` statement, the try/finally-style
scope guard of the spec's design notes): run enter; when it succeeds, run
the body and then the exit trace unconditionally, the body's error, if any,
propagating afterwards; when enter itself fails, exit is not run. -/
def pythonWith {α β : Type} (enter : List Ev × Except PrepErr α)
    (body : α → List Ev × Except PrepErr β) (exitTrace : List Ev) :
    List Ev × Except PrepErr β :=
  match enter with
  | (t, Except.error e) => (t, Except.error e)
  | (t, Except.ok a) =>
    let r := body a
    (t ++ r.1 ++ exitTrace, r.2)

/-- `MTPContext.__enter__` up to its return: `self.expression.enter()` runs
first, then `_prepare_phenotype`. -/
def mtpEnterTrace (fit : FitFn) (args : Args) : List Ev × Except PrepErr PrepState :=
  ([.expressionEnter], preparePhenotype fit args)

/-- `MTPContext.__exit__`: `self.expression.exit()`, unconditionally. -/
def mtpExitTrace : List Ev := [.expressionExit]

/-- `HDF5PContext.__enter__` up to its return: `_structure_file` opens the
HDF5 handle first, then `_prepare_phenotype`. -/
def hdf5pEnterTrace (fit : FitFn) (args : Args) : List Ev × Except PrepErr PrepState :=
  ([.hdf5Open], preparePhenotype fit args)

/-- `HDF5PContext.__exit__`: `HDF5Expression._close_file(self.h5)`,
unconditionally. -/
def hdf5pExitTrace : List Ev := [.hdf5Close]

/-- One scoped multi-tissue run: enter, body, exit. -/
def runMTPScoped (fit : FitFn) (args : Args)
    (body : PrepState → List Ev × Except PrepErr Unit) : List Ev × Except PrepErr Unit :=
  pythonWith (mtpEnterTrace fit args) body mtpExitTrace

/-- One scoped single-tissue structured-file run: enter, body, exit. -/
def runHDF5PScoped (fit : FitFn) (args : Args)
    (body : PrepState → List Ev × Except PrepErr Unit) : List Ev × Except PrepErr Unit :=
  pythonWith (hdf5pEnterTrace fit args) body hdf5pExitTrace

instance {ε α : Type} [DecidableEq ε] [DecidableEq α] : DecidableEq (Except ε α) :=
  fun x y =>
    match x, y with
    | .ok a, .ok b =>
      if h : a = b then .isTrue (by rw [h]) else .isFalse (by simp [h])
    | .error a, .error b =>
      if h : a = b then .isTrue (by rw [h]) else .isFalse (by simp [h])
    | .ok _, .error _ => .isFalse (by simp)
    | .error _, .ok _ => .isFalse (by simp)

/-- The fitted value the OLS collaborator assigns to original row `i`:
the design row at `i` against the fitted coefficients. -/
def fittedAt (fit : FitFn) (pheno : List PFloat) (covs : CovTable) (i : ℕ) : ℚ :=
  dot (designRow (prunedCovs pheno covs) i) (olsCoef fit pheno covs)

/-- A configuration with every option unset/falsy, used as the base of the
concrete test configurations below. -/
def baseArgs : Args where
  mode := .linear
  hdf5_expression_folder := false
  memory_efficient := false
  expression_folder := false
  expression_file := false
  hdf5_expression_file := false
  covariates_file := false
  covariates := []
  rawPheno := []
  rawCovariates := []
  pc_condition_number := none
  pc_eigen_ratio := none

/-- A trivial fitting collaborator returning two zero coefficients. -/
def zeroFit : FitFn := fun _ _ => [0, 0]

/-- A scoped body that raises. -/
def failingBody : PrepState → List Ev × Except PrepErr Unit :=
  fun _ => ([.bodyEvent], Except.error .invalidArguments)

/-- Logistic mode with a phenotype of exactly 0.0 and 1.0 and no missing
entry. -/
def c1Args : Args :=
  { baseArgs with mode := .logistic, rawPheno := [.val 0, .val 1] }

/-- Logistic mode with a binomial-with-missing phenotype. -/
def w1Args : Args :=
  { baseArgs with mode := .logistic, rawPheno := [.val 0, .val 1, .nan] }

/-- Both single-file expression options set at once. -/
def c2Args : Args :=
  { baseArgs with expression_file := true, hdf5_expression_file := true }

/-- A configuration with both thresholds set; the condition number must win. -/
def w8Args : Args :=
  { baseArgs with pc_condition_number := some 2, pc_eigen_ratio := some (9 / 10) }

/-- Logistic mode, covariates configured, and a clearly non-binomial
phenotype value. -/
def w9Args : Args :=
  { baseArgs with
    mode := .logistic
    covariates_file := true
    covariates := ["age"]
    rawPheno := [.val 2]
    rawCovariates := [("age", [.val 5])] }

/-- Logistic mode with covariates configured and a binomial-with-missing
phenotype, on which entry succeeds and residualizes. -/
def w4Args : Args :=
  { baseArgs with
    mode := .logistic
    covariates_file := true
    covariates := ["age"]
    rawPheno := [.val 0, .val 1, .nan]
    rawCovariates := [("age", [.val 5, .val 7, .val 9])] }

/-- A fitting collaborator with non-trivial coefficients. -/
def w3Fit : FitFn := fun _ _ => [1, 2]

def w3Pheno : List PFloat := [.val 10, .nan, .val 30]

def w3Covs : CovTable := [("age", [.val 5, .val 7, .val 9])]

def w6Pheno : List PFloat := [.val 1, .val 2]

/-- A covariate table with one all-zero column beside a useful one. -/
def w6Covs : CovTable := [("z", [.val 0, .val 0]), ("age", [.val 5, .val 7])]

end Metax

namespace Metax

/- ## Helper lemmas -/

theorem zip_self_map {α β : Type} (l : List α) (h : α → β) :
    l.zip (l.map h) = l.map (fun a => (a, h a)) := by
  induction l with
  | nil => rfl
  | cons a as ih => simp [ih]

theorem lookup_map_graph (h : ℕ → ℚ) (i : ℕ) (l : List ℕ) :
    (l.map (fun a => (a, h a))).lookup i = if i ∈ l then some (h i) else none := by
  induction l with
  | nil => rfl
  | cons a as ih =>
    by_cases hia : i = a
    · subst hia
      simp [List.lookup]
    · have hba : (i == a) = false := by
        simp [hia]
      simp [List.lookup, hba, ih, hia]

theorem mem_retainedIdx (pheno : List PFloat) (covs : CovTable) (i : ℕ) :
    i ∈ retainedIdx pheno covs ↔ i < pheno.length ∧ retainedRow pheno covs i = true := by
  unfold retainedIdx
  rw [List.mem_filter, List.mem_range]

theorem residSeries_eq (fit : FitFn) (pheno : List PFloat) (covs : CovTable) :
    residSeries fit pheno covs = (retainedIdx pheno covs).map
      (fun j => (pheno.getD j .nan).q - fittedAt fit pheno covs j) := by
  unfold residSeries designMatrix responseVec fittedAt
  rw [List.zip_map', List.map_map]
  rfl

theorem mergedResidual_length (fit : FitFn) (pheno : List PFloat) (covs : CovTable) :
    (mergedResidual fit pheno covs).length = pheno.length := by
  unfold mergedResidual
  rw [List.length_map, List.length_range]

theorem mergedResidual_getD (fit : FitFn) (pheno : List PFloat) (covs : CovTable)
    (i : ℕ) (hi : i < pheno.length) :
    (mergedResidual fit pheno covs).getD i (.val 0) =
      if retainedRow pheno covs i = true
      then .val ((pheno.getD i .nan).q - fittedAt fit pheno covs i)
      else .nan := by
  have hlen : i < (mergedResidual fit pheno covs).length := by
    rw [mergedResidual_length]; exact hi
  rw [List.getD_eq_getElem _ _ hlen]
  unfold mergedResidual
  rw [List.getElem_map, List.getElem_range, residSeries_eq, zip_self_map,
    lookup_map_graph]
  by_cases hr : retainedRow pheno covs i = true
  · rw [if_pos ((mem_retainedIdx pheno covs i).mpr ⟨hi, hr⟩), if_pos hr]
  · rw [if_neg (fun hmem => hr ((mem_retainedIdx pheno covs i).mp hmem).2),
      if_neg hr]

theorem getResidual_ok_eq {fit : FitFn} {pheno : List PFloat} {covs : CovTable}
    {out : List PFloat} (h : getResidual fit pheno covs = Except.ok out) :
    out = mergedResidual fit pheno covs := by
  unfold getResidual at h
  split at h
  · cases h
  · split at h
    · cases h
    · split at h
      · cases h
      · split at h
        · cases h
        · exact (Except.ok.inj h).symm

theorem mem_filterEigenValuesFromMax (s : List ℚ) (r : ℚ) (i : ℕ) :
    i ∈ filterEigenValuesFromMax s r ↔ i < s.length ∧ npMax s * r < s.getD i 0 := by
  unfold filterEigenValuesFromMax enumerate
  rw [← List.enum_eq_zip_range]
  simp only [List.mem_filterMap, List.mem_enum_iff_getElem?]
  constructor
  · rintro ⟨⟨j, x⟩, hmem, hif⟩
    by_cases hc : npMax s * r < x
    · rw [if_pos hc] at hif
      cases hif
      rcases List.getElem?_eq_some.mp hmem with ⟨hj, hx⟩
      refine ⟨hj, ?_⟩
      rw [List.getD_eq_getElem s 0 hj, hx]
      exact hc
    · rw [if_neg hc] at hif
      cases hif
  · rintro ⟨hi, hlt⟩
    refine ⟨(i, s.getD i 0), ?_, ?_⟩
    · rw [List.getD_eq_getElem s 0 hi]
      exact List.getElem?_eq_some.mpr ⟨hi, rfl⟩
    · rw [if_pos hlt]

/- ## The claims -/

/-- **C8.** The configured principal-component filter: with a truthy
condition number the filter keeps exactly the eigenvalue indices strictly
above `max(s) / condition_number` (the condition number taking priority
over the eigen ratio); with only a truthy eigen ratio, those strictly above
`max(s) * ratio`; with neither, no filter is produced. -/
theorem pc_filter_selection (args : Args) (s : List ℚ) (hs : s ≠ []) :
    (truthy args.pc_condition_number = true →
      ∃ f, filterFromArgs args = some f ∧
        ∀ i, i ∈ f s ↔ i < s.length ∧
          npMax s * (1 / optQ args.pc_condition_number) < s.getD i 0) ∧
    (truthy args.pc_condition_number = false →
      truthy args.pc_eigen_ratio = true →
      ∃ f, filterFromArgs args = some f ∧
        ∀ i, i ∈ f s ↔ i < s.length ∧
          npMax s * optQ args.pc_eigen_ratio < s.getD i 0) ∧
    (truthy args.pc_condition_number = false →
      truthy args.pc_eigen_ratio = false →
      filterFromArgs args = none) := by
  refine ⟨?_, ?_, ?_⟩
  · intro h1
    refine ⟨fun x => filterEigenValuesFromMax x (1 / optQ args.pc_condition_number),
      ?_, fun i => mem_filterEigenValuesFromMax s _ i⟩
    unfold filterFromArgs
    rw [if_pos h1]
  · intro h1 h2
    refine ⟨fun x => filterEigenValuesFromMax x (optQ args.pc_eigen_ratio),
      ?_, fun i => mem_filterEigenValuesFromMax s _ i⟩
    unfold filterFromArgs
    rw [if_neg (by simp [h1]), if_pos h2]
  · intro h1 h2
    unfold filterFromArgs
    rw [if_neg (by simp [h1]), if_neg (by simp [h2])]

/-- Witness for C8 at a concrete configuration and spectrum. -/
theorem pc_filter_selection_witness :
    (truthy w8Args.pc_condition_number = true →
      ∃ f, filterFromArgs w8Args = some f ∧
        ∀ i, i ∈ f [4, 1, 3, 0] ↔ i < ([4, 1, 3, 0] : List ℚ).length ∧
          npMax [4, 1, 3, 0] * (1 / optQ w8Args.pc_condition_number) <
            ([4, 1, 3, 0] : List ℚ).getD i 0) ∧
    (truthy w8Args.pc_condition_number = false →
      truthy w8Args.pc_eigen_ratio = true →
      ∃ f, filterFromArgs w8Args = some f ∧
        ∀ i, i ∈ f [4, 1, 3, 0] ↔ i < ([4, 1, 3, 0] : List ℚ).length ∧
          npMax [4, 1, 3, 0] * optQ w8Args.pc_eigen_ratio <
            ([4, 1, 3, 0] : List ℚ).getD i 0) ∧
    (truthy w8Args.pc_condition_number = false →
      truthy w8Args.pc_eigen_ratio = false →
      filterFromArgs w8Args = none) :=
  pc_filter_selection w8Args [4, 1, 3, 0] (by simp)

/-- **C2, counterexample.** With both single-file options set the code
selects the structured single-tissue context while the claimed priority
order selects the single-file plain-text backend; and with no expression
option set, single-tissue selection fails by returning an unassigned local
variable, which is not a configuration error. -/
theorem backend_priority_counterexample :
    pContextFromArgs c2Args = Except.ok .hdf5PContext ∧
    specBackendSelect c2Args = Except.ok .singleFilePlainText ∧
    pContextFromArgs baseArgs = Except.error .unboundLocal ∧
    isConfigurationError .unboundLocal = false := by
  refine ⟨rfl, rfl, rfl, rfl⟩

/-- **C2, amended.** Each selector produces exactly one backend in its own
priority order: multi-tissue selection is structured multi-tissue (hdf5
folder) > memory-efficient plain-text > standard plain-text, else a bare
runtime error; single-tissue selection is structured single-tissue (hdf5
expression file) > single-file plain-text (expression file), else an
unbound-local failure, not a configuration error. -/
theorem backend_selection_characterization (args : Args) :
    (expressionFromArgs args = Except.ok .hdf5ExpressionManager ↔
      args.hdf5_expression_folder = true) ∧
    (expressionFromArgs args = Except.ok .plainTextMemoryEfficient ↔
      (args.hdf5_expression_folder = false ∧ args.memory_efficient = true ∧
        args.expression_folder = true)) ∧
    (expressionFromArgs args = Except.ok .plainTextManager ↔
      (args.hdf5_expression_folder = false ∧ args.memory_efficient = false ∧
        args.expression_folder = true)) ∧
    (expressionFromArgs args = Except.error .runtimeError ↔
      (args.hdf5_expression_folder = false ∧ args.expression_folder = false)) ∧
    (pContextFromArgs args = Except.ok .hdf5PContext ↔
      args.hdf5_expression_file = true) ∧
    (pContextFromArgs args = Except.ok .plainTextPContext ↔
      (args.hdf5_expression_file = false ∧ args.expression_file = true)) ∧
    (pContextFromArgs args = Except.error .unboundLocal ↔
      (args.hdf5_expression_file = false ∧ args.expression_file = false)) := by
  unfold expressionFromArgs pContextFromArgs
  cases h1 : args.hdf5_expression_folder <;> cases h2 : args.memory_efficient <;>
    cases h3 : args.expression_folder <;> cases h4 : args.expression_file <;>
      cases h5 : args.hdf5_expression_file <;> simp

/-- **C6.** A covariate column that is entirely zero across the retained
rows is excluded by the all-zero column drop, and no all-zero column
survives among the covariate columns from which the design matrix is
assembled. -/
theorem allzero_covariate_excluded (pheno : List PFloat) (covs : CovTable)
    (c : String × List PFloat) (hc : c ∈ covs)
    (hz : allZeroOn (retainedIdx pheno covs) c.2 = true) :
    c ∉ prunedCovs pheno covs ∧
    ∀ k ∈ prunedCovs pheno covs, allZeroOn (retainedIdx pheno covs) k.2 = false := by
  constructor
  · intro hmem
    rcases List.mem_filter.mp hmem with ⟨_, hp⟩
    rw [hz] at hp
    cases hp
  · intro k hk
    rcases List.mem_filter.mp hk with ⟨_, hp⟩
    simpa using hp

/-- Witness for C6: the all-zero column `z` is dropped, and every surviving
covariate column is not all-zero. -/
theorem allzero_covariate_excluded_witness :
    ("z", [PFloat.val 0, PFloat.val 0]) ∉ prunedCovs w6Pheno w6Covs ∧
    ∀ k ∈ prunedCovs w6Pheno w6Covs,
      allZeroOn (retainedIdx w6Pheno w6Covs) k.2 = false :=
  allzero_covariate_excluded w6Pheno w6Covs ("z", [PFloat.val 0, PFloat.val 0])
    (by decide) (by decide)

/-- **C10.** When the phenotype values over the retained rows are all
exactly zero, the all-zero column drop removes the phenotype column itself
and residualization fails instead of returning a residual vector. -/
theorem allzero_phenotype_fails (fit : FitFn) (pheno : List PFloat)
    (covs : CovTable) (hshape : shapeOk pheno covs = true)
    (hz : allZeroOn (retainedIdx pheno covs) pheno = true) :
    getResidual fit pheno covs = Except.error .phenoColumnDropped := by
  unfold getResidual
  rw [hshape, hz]
  simp

/-- Witness for C10 at a concrete all-zero phenotype. -/
theorem allzero_phenotype_fails_witness :
    getResidual zeroFit [.val 0, .val 0, .val 0] [("age", [.val 5, .val 7, .val 9])] =
      Except.error .phenoColumnDropped :=
  allzero_phenotype_fails zeroFit _ _ (by decide) (by decide)

/-- **C7.** Once a context has been entered, its scoped exit releases the
expression backend unconditionally: whatever the scoped body does,
including raising, the multi-tissue exit runs `expression.exit()` and the
structured single-tissue exit closes its HDF5 handle. -/
theorem scoped_exit_releases_backend (fit : FitFn) (args : Args)
    (body : PrepState → List Ev × Except PrepErr Unit) (r : PrepState)
    (h : preparePhenotype fit args = Except.ok r) :
    Ev.expressionExit ∈ (runMTPScoped fit args body).1 ∧
    Ev.hdf5Close ∈ (runHDF5PScoped fit args body).1 := by
  unfold runMTPScoped runHDF5PScoped pythonWith mtpEnterTrace hdf5pEnterTrace
  rw [h]
  constructor <;> simp [mtpExitTrace, hdf5pExitTrace]

/-- Witness for C7: a body that raises still reaches both exit events. -/
theorem scoped_exit_releases_backend_witness :
    Ev.expressionExit ∈ (runMTPScoped zeroFit baseArgs failingBody).1 ∧
    Ev.hdf5Close ∈ (runHDF5PScoped zeroFit baseArgs failingBody).1 :=
  scoped_exit_releases_backend zeroFit baseArgs failingBody
    ⟨.linear, none, []⟩ (by decide)

/-- **C1, counterexample.** A loaded phenotype of exactly the values 0.0
and 1.0 with no missing entry is rejected by the logistic binomial check,
although the claim says entry succeeds on values exactly 0.0 and 1.0 plus
possibly some NaN. -/
theorem logistic_no_nan_rejected :
    phenoFromFileAndColumn c1Args.rawPheno = [PFloat.val 0, PFloat.val 1] ∧
    preparePhenotype zeroFit c1Args = Except.error .invalidArguments := by
  constructor
  · norm_num [c1Args, baseArgs, phenoFromFileAndColumn, sentinelFilter]
  · norm_num [preparePhenotype, c1Args, baseArgs, phenoFromFileAndColumn,
      sentinelFilter, binomialOk, strRep, covariateBranch, zeroFit]
    intro h
    exact absurd (h (fun heq => StrRep.noConfusion heq))
      (fun heq => StrRep.noConfusion heq)

/-- **C1, amended.** When logistic mode is requested and no covariate
residualization is configured, entry succeeds if and only if the set of
decimal string forms of the loaded phenotype values is exactly
0.0, 1.0, nan: both 0.0 and 1.0 occur, at least one missing value occurs,
and nothing else occurs. -/
theorem logistic_binomial_exact_set (fit : FitFn) (args : Args)
    (hm : args.mode = .logistic) (hc : covariateBranch args = false) :
    (∃ r, preparePhenotype fit args = Except.ok r) ↔
      binomialOk (phenoFromFileAndColumn args.rawPheno) = true := by
  unfold preparePhenotype
  rw [hm, hc]
  cases hb : binomialOk (phenoFromFileAndColumn args.rawPheno) <;> simp [hb]

/-- Witness for C1 at a concrete logistic configuration. -/
theorem logistic_binomial_exact_set_witness :
    (∃ r, preparePhenotype zeroFit w1Args = Except.ok r) ↔
      binomialOk (phenoFromFileAndColumn w1Args.rawPheno) = true :=
  logistic_binomial_exact_set zeroFit w1Args rfl rfl

/-- **C9.** The binomial check runs on the loaded phenotype before the
covariate branch: with logistic mode and covariates configured, a
phenotype containing a value whose string form is none of 0.0, 1.0, nan
still makes entry fail with the invalid-arguments error. -/
theorem binomial_check_precedes_mode_override (fit : FitFn) (args : Args)
    (hm : args.mode = .logistic) (hcf : args.covariates_file = true)
    (hcv : args.covariates ≠ [])
    (hbad : ∃ v ∈ phenoFromFileAndColumn args.rawPheno,
      strRep v ≠ .s00 ∧ strRep v ≠ .s10 ∧ strRep v ≠ .snan) :
    preparePhenotype fit args = Except.error .invalidArguments := by
  have hb : binomialOk (phenoFromFileAndColumn args.rawPheno) = false := by
    rcases hbad with ⟨v, hv, h0, h1, hn⟩
    have hA : (phenoFromFileAndColumn args.rawPheno).all
        (fun x => strRep x = .s00 ∨ strRep x = .s10 ∨ strRep x = .snan) = false := by
      rw [List.all_eq_false]
      refine ⟨v, hv, ?_⟩
      simp [h0, h1, hn]
    unfold binomialOk
    rw [hA]
    simp
  unfold preparePhenotype
  rw [hm]
  simp [hb]

theorem lookup_mem {table : CovTable} {n : String} {c : List PFloat}
    (h : table.lookup n = some c) : (n, c) ∈ table := by
  induction table with
  | nil => cases h
  | cons p ps ih =>
    rcases p with ⟨m, col⟩
    by_cases hnm : n = m
    · subst hnm
      simp [List.lookup] at h
      subst h
      exact List.mem_cons_self _ _
    · have hb : (n == m) = false := by simp [hnm]
      simp [List.lookup, hb] at h
      exact List.mem_cons_of_mem _ (ih h)

theorem selectColumns_spec {table : CovTable} :
    ∀ {names : List String} {cols : CovTable},
      selectColumns names table = some cols →
      cols.map Prod.fst = names ∧ ∀ nc ∈ cols, table.lookup nc.1 = some nc.2 := by
  intro names
  induction names with
  | nil =>
    intro cols h
    simp [selectColumns] at h
    subst h
    exact ⟨rfl, fun nc hnc => absurd hnc (List.not_mem_nil nc)⟩
  | cons n ns ih =>
    intro cols h
    unfold selectColumns at h
    cases hl : table.lookup n with
    | none => rw [hl] at h; cases h
    | some c =>
      rw [hl] at h
      cases hs : selectColumns ns table with
      | none => rw [hs] at h; cases h
      | some rest =>
        rw [hs] at h
        cases h
        obtain ⟨h1, h2⟩ := ih hs
        refine ⟨by rw [List.map_cons, h1], ?_⟩
        intro nc hnc
        rcases List.mem_cons.mp hnc with hnc | hnc
        · subst hnc; exact hl
        · exact h2 nc hnc

/-- **C5.** Sentinel handling and covariate selection: a numeric value
within absolute tolerance 1/1000 of -999 loads as NaN and any other value
loads unchanged; the phenotype column is exactly the raw column filtered
value-wise; and a successfully loaded covariate mapping names exactly the
configured columns, each one the sentinel-filtered copy of the
corresponding raw column, independently of the others. -/
theorem sentinel_substitution_and_covariate_names :
    (∀ q : ℚ, (|q - (-999)| ≤ 1 / 1000 → sentinelFilter (.val q) = .nan) ∧
      (¬(|q - (-999)| ≤ 1 / 1000) → sentinelFilter (.val q) = .val q)) ∧
    (∀ raw, phenoFromFileAndColumn raw = raw.map sentinelFilter) ∧
    (∀ args cols, getCovariates args = Except.ok cols →
      cols.map Prod.fst = args.covariates ∧
      ∀ nc ∈ cols, ∃ c, (nc.1, c) ∈ args.rawCovariates ∧
        nc.2 = c.map sentinelFilter) := by
  refine ⟨?_, fun raw => rfl, ?_⟩
  · intro q
    constructor
    · intro hq
      rw [abs_le] at hq
      simp only [sentinelFilter]
      rw [if_pos hq]
    · intro hq
      simp only [sentinelFilter]
      rw [if_neg (fun hand => hq (abs_le.mpr hand))]
  · intro args cols h
    unfold getCovariates at h
    cases hsel : selectColumns args.covariates args.rawCovariates with
    | none => rw [hsel] at h; cases h
    | some cols0 =>
      rw [hsel] at h
      obtain ⟨h1, h2⟩ := selectColumns_spec hsel
      cases h
      constructor
      · rw [List.map_map]
        simpa using h1
      · intro nc hnc
        rcases List.mem_map.mp hnc with ⟨nc0, hnc0, rfl⟩
        exact ⟨nc0.2, lookup_mem (h2 nc0 hnc0), rfl⟩

/-- **C4.** When both a covariates file and a non-empty covariate list are
configured, a successful entry has linear mode (whatever mode was
requested), the loaded covariates, and the residualized phenotype;
otherwise the mode is the configured one and no covariates are kept. -/
theorem covariate_override_and_residualization (fit : FitFn) (args : Args)
    (r : PrepState) (h : preparePhenotype fit args = Except.ok r) :
    (covariateBranch args = true →
      r.mode = .linear ∧ ∃ covs, getCovariates args = Except.ok covs ∧
        r.covariates = some covs ∧
        getResidual fit (phenoFromFileAndColumn args.rawPheno) covs =
          Except.ok r.pheno) ∧
    (covariateBranch args = false →
      r.mode = args.mode ∧ r.covariates = none ∧
      r.pheno = phenoFromFileAndColumn args.rawPheno) := by
  simp only [preparePhenotype] at h
  split at h
  · cases h
  · split at h
    next hcb =>
      constructor
      · intro _
        split at h
        · cases h
        next covs hg =>
          split at h
          · cases h
          next res hr =>
            cases h
            exact ⟨rfl, covs, hg, rfl, hr⟩
      · intro hcb2
        rw [hcb2] at hcb
        cases hcb
    next hcb =>
      cases h
      exact ⟨fun hcb2 => absurd hcb2 hcb, fun _ => ⟨rfl, rfl, rfl⟩⟩

/-- Witness for C4: a logistic request with covariates configured enters
successfully, is forced to linear mode, and carries the residualized
phenotype. -/
theorem covariate_override_and_residualization_witness :
    (covariateBranch w4Args = true →
      PrepState.mode ⟨.linear, some [("age", [.val 5, .val 7, .val 9])],
          [.val 0, .val 1, .nan]⟩ = .linear ∧
      ∃ covs, getCovariates w4Args = Except.ok covs ∧
        PrepState.covariates ⟨.linear, some [("age", [.val 5, .val 7, .val 9])],
          [.val 0, .val 1, .nan]⟩ = some covs ∧
        getResidual zeroFit (phenoFromFileAndColumn w4Args.rawPheno) covs =
          Except.ok (PrepState.pheno ⟨.linear,
            some [("age", [.val 5, .val 7, .val 9])], [.val 0, .val 1, .nan]⟩)) ∧
    (covariateBranch w4Args = false →
      PrepState.mode ⟨.linear, some [("age", [.val 5, .val 7, .val 9])],
          [.val 0, .val 1, .nan]⟩ = w4Args.mode ∧
      PrepState.covariates ⟨.linear, some [("age", [.val 5, .val 7, .val 9])],
          [.val 0, .val 1, .nan]⟩ = none ∧
      PrepState.pheno ⟨.linear, some [("age", [.val 5, .val 7, .val 9])],
          [.val 0, .val 1, .nan]⟩ = phenoFromFileAndColumn w4Args.rawPheno) :=
  covariate_override_and_residualization zeroFit w4Args
    ⟨.linear, some [("age", [.val 5, .val 7, .val 9])], [.val 0, .val 1, .nan]⟩
    (by
      norm_num [preparePhenotype, w4Args, baseArgs, phenoFromFileAndColumn,
        sentinelFilter, binomialOk, strRep, covariateBranch, getCovariates,
        selectColumns, List.lookup, getResidual, shapeOk, retainedIdx,
        retainedRow, allZeroOn, prunedCovs, mergedResidual, residSeries,
        designMatrix, designRow, responseVec, olsCoef, dot, zeroFit,
        PFloat.isNan, PFloat.q, List.range_succ]
      decide)

/-- **C3.** A successful residualization returns one value per input row in
the same order: a row dropped for missingness is NaN, and a retained row
holds exactly the observed phenotype minus the fitted value of that row. -/
theorem residual_alignment (fit : FitFn) (pheno : List PFloat) (covs : CovTable)
    (out : List PFloat) (h : getResidual fit pheno covs = Except.ok out) :
    out.length = pheno.length ∧
    (∀ i, i < pheno.length → retainedRow pheno covs i = false →
      out.getD i (.val 0) = .nan) ∧
    (∀ i, i < pheno.length → retainedRow pheno covs i = true →
      out.getD i (.val 0) =
        .val ((pheno.getD i .nan).q - fittedAt fit pheno covs i)) := by
  have hout := getResidual_ok_eq h
  subst hout
  refine ⟨mergedResidual_length fit pheno covs, ?_, ?_⟩
  · intro i hi hr
    rw [mergedResidual_getD fit pheno covs i hi, if_neg (by simp [hr])]
  · intro i hi hr
    rw [mergedResidual_getD fit pheno covs i hi, if_pos hr]

/-- Witness for C3 at a concrete fit and data: residuals are re-aligned,
the dropped middle row is NaN. -/
theorem residual_alignment_witness :
    ([PFloat.val (-1), PFloat.nan, PFloat.val 11] : List PFloat).length =
      w3Pheno.length ∧
    (∀ i, i < w3Pheno.length → retainedRow w3Pheno w3Covs i = false →
      ([PFloat.val (-1), PFloat.nan, PFloat.val 11] : List PFloat).getD i
        (.val 0) = .nan) ∧
    (∀ i, i < w3Pheno.length → retainedRow w3Pheno w3Covs i = true →
      ([PFloat.val (-1), PFloat.nan, PFloat.val 11] : List PFloat).getD i
        (.val 0) =
        .val ((w3Pheno.getD i .nan).q - fittedAt w3Fit w3Pheno w3Covs i)) :=
  residual_alignment w3Fit w3Pheno w3Covs
    [PFloat.val (-1), PFloat.nan, PFloat.val 11]
    (by
      norm_num [getResidual, w3Fit, w3Pheno, w3Covs, shapeOk, retainedIdx,
        retainedRow, allZeroOn, prunedCovs, mergedResidual, residSeries,
        designMatrix, designRow, responseVec, olsCoef, dot, PFloat.isNan,
        PFloat.q, List.lookup, List.range_succ]
      decide)

/-- Witness for C9 at a concrete configuration with a phenotype value 2.0. -/
theorem binomial_check_precedes_mode_override_witness :
    preparePhenotype zeroFit w9Args = Except.error .invalidArguments :=
  binomial_check_precedes_mode_override zeroFit w9Args rfl rfl
    (by simp [w9Args, baseArgs])
    ⟨.val 2, by norm_num [w9Args, baseArgs, phenoFromFileAndColumn, sentinelFilter],
      by norm_num [strRep]; decide, by norm_num [strRep]; decide,
      by norm_num [strRep]; decide⟩

end Metax
